import Mathlib

/-!
Verification of the offline cache controller (`src/sw.js`) of the
urodziny-web repository.

The service worker is embedded shallowly:

* The browser's `CacheStorage` is a list of named caches, each a list of
  entries keyed by request URL (the worker only ever caches GET requests,
  so the URL is the request identity).
* The network is a function `String → Option Response`: `some r` means the
  fetch resolves with response `r`, `none` means the fetch rejects.
* Each event listener of `sw.js` becomes a Lean function from the relevant
  inputs to the relevant outputs (resulting cache storage, outcome
  delivered to the page, number of network fetches performed, flags for
  `skipWaiting` / logging).
* `Env.matchFails` models a cache store whose `caches.match` rejects;
  `Env.putFails` models a failing `caches.open(..).then(put)` chain (the
  worker fires that chain without awaiting it, so a rejection there never
  reaches the response path; it only means the write does not land).
-/

namespace SW

/-- A fetched/cached HTTP response: its status code and body bytes. -/
structure Response where
  status : Nat
  body : String
deriving DecidableEq, Repr

/-- `sw.js` line 2: `const CACHE_NAME = 'birthday-cache-v1.0.0';` -/
def CACHE_NAME : String := "birthday-cache-v1.0.0"

/-- `sw.js` line 3: `const STATIC_CACHE = 'static-v1';` -/
def STATIC_CACHE : String := "static-v1"

/-- `sw.js` line 4: `const DYNAMIC_CACHE = 'dynamic-v1';` -/
def DYNAMIC_CACHE : String := "dynamic-v1"

/-- `sw.js` lines 7-17: the static manifest `STATIC_FILES`. -/
def STATIC_FILES : List String :=
  [ "/",
    "/index.html",
    "/style.css",
    "/script.js",
    "https://cdn.jsdelivr.net/npm/gsap@3.12.5/dist/gsap.min.js",
    "https://cdn.jsdelivr.net/npm/gsap@3.12.5/dist/ScrollTrigger.min.js",
    "https://cdn.jsdelivr.net/npm/gsap@3.12.5/dist/ScrollToPlugin.min.js",
    "https://cdn.jsdelivr.net/npm/canvas-confetti@1.9.3/dist/confetti.browser.min.js",
    "https://fonts.googleapis.com/css2?family=Poppins:wght@300;400;600;800&family=Great+Vibes&display=swap" ]

/-- The entries of one named cache: request URL ↦ cached response.
`Cache.put` keeps one entry per key. -/
abbrev CacheEntries := List (String × Response)

/-- The browser cache storage: named cache generations in creation order
(`caches.match` consults them in that order). -/
abbrev CacheStorage := List (String × CacheEntries)

/-- `cache.match(url)` on a single cache: the entry stored under `url`. -/
def lookupEntry : CacheEntries → String → Option Response
  | [], _ => none
  | e :: rest, url => if e.1 = url then some e.2 else lookupEntry rest url

/-- `cache.put(url, r)`: overwrite the entry under `url`, or append a new
entry when the key is absent. -/
def putEntry : CacheEntries → String → Response → CacheEntries
  | [], url, r => [(url, r)]
  | e :: rest, url, r =>
      if e.1 = url then (url, r) :: rest else e :: putEntry rest url r

/-- `caches.open(name)`: return the storage with a cache of that name
present, creating an empty one (at the end, creation order) if absent. -/
def cachesOpen : CacheStorage → String → CacheStorage
  | [], name => [(name, [])]
  | c :: rest, name =>
      if c.1 = name then c :: rest else c :: cachesOpen rest name

/-- `caches.open(name).then(cache => cache.put(url, r))`: write `r` under
`url` into the cache called `name`, creating the cache if needed. -/
def cachePut : CacheStorage → String → String → Response → CacheStorage
  | [], name, url, r => [(name, [(url, r)])]
  | c :: rest, name, url, r =>
      if c.1 = name then (c.1, putEntry c.2 url r) :: rest
      else c :: cachePut rest name url r

/-- `caches.match(url)`: search every cache generation in order and return
the first hit. -/
def cachesMatch : CacheStorage → String → Option Response
  | [], _ => none
  | c :: rest, url =>
      match lookupEntry c.2 url with
      | some r => some r
      | none => cachesMatch rest url

/-- `caches.keys()`. -/
def cachesKeys (cs : CacheStorage) : List String := cs.map (fun c => c.1)

/-- `caches.delete(name)`: remove the cache generation called `name`. -/
def cachesDelete (cs : CacheStorage) (name : String) : CacheStorage :=
  cs.filter (fun c => c.1 != name)

/-- The contents of the generation called `name` (for stating frame
properties about whole generations). -/
def cacheLookup (cs : CacheStorage) (name : String) : Option CacheEntries :=
  (cs.find? (fun c => c.1 == name)).map (fun c => c.2)

/-- A response the Cache API treats as ok (`response.ok`): status 200-299.
`cache.addAll` refuses to store anything else; the runtime paths of
`sw.js` use the stricter `status === 200` guard. -/
def respOk (r : Response) : Bool := 200 ≤ r.status && r.status < 300

/-- Every entry of every generation holds a successful-status response. -/
def cacheOk (cs : CacheStorage) : Prop :=
  ∀ c ∈ cs, ∀ e ∈ c.2, respOk e.2 = true

instance (cs : CacheStorage) : Decidable (cacheOk cs) := by
  unfold cacheOk; infer_instance

/-! ## Install event (`sw.js` lines 20-35) -/

/-- What the install listener's `waitUntil` promise produced. -/
structure InstallResult where
  /-- The cache storage after the install attempt. -/
  cs : CacheStorage
  /-- Whether the `waitUntil` promise resolved, i.e. whether the browser
  considers the install successful. -/
  succeeded : Bool
  /-- Whether `self.skipWaiting()` was reached (line 29). -/
  skipWaitingCalled : Bool
  /-- Whether the `.catch` handler logged `[SW] Cache failed` (line 32). -/
  errorLogged : Bool
deriving DecidableEq, Repr

/-- `cache.addAll(urls)` succeeds iff every URL fetches to an ok response. -/
def addAllOk (net : String → Option Response) (urls : List String) : Bool :=
  urls.all (fun u =>
    match net u with
    | some r => respOk r
    | none => false)

/-- The writes `cache.addAll(urls)` performs when it succeeds (the Cache
API batch is atomic: on failure nothing at all is written). -/
def addAllWrite (cs : CacheStorage) (net : String → Option Response)
    (urls : List String) : CacheStorage :=
  urls.foldl
    (fun acc u =>
      match net u with
      | some r => cachePut acc STATIC_CACHE u r
      | none => acc)
    cs

/-- `sw.js` lines 20-35: open `STATIC_CACHE`, `addAll(STATIC_FILES)`, then
`skipWaiting()`; a rejection anywhere lands in the final `.catch`, which
logs the error and resolves — so the `waitUntil` promise succeeds either
way. -/
def installEvent (cs : CacheStorage) (net : String → Option Response) :
    InstallResult :=
  let opened := cachesOpen cs STATIC_CACHE
  if addAllOk net STATIC_FILES then
    { cs := addAllWrite opened net STATIC_FILES,
      succeeded := true, skipWaitingCalled := true, errorLogged := false }
  else
    { cs := opened,
      succeeded := true, skipWaitingCalled := false, errorLogged := true }

/-! ## Activate event (`sw.js` lines 38-56) -/

/-- The deletion predicate of line 44:
`cacheName !== STATIC_CACHE && cacheName !== DYNAMIC_CACHE`. -/
def staleGen (name : String) : Bool :=
  name != STATIC_CACHE && name != DYNAMIC_CACHE

/-- `sw.js` lines 38-56: enumerate `caches.keys()` and delete every
generation whose name is neither `STATIC_CACHE` nor `DYNAMIC_CACHE`. -/
def activateEvent (cs : CacheStorage) : CacheStorage :=
  (cachesKeys cs).foldl
    (fun acc name => if staleGen name then cachesDelete acc name else acc)
    cs

/-! ## Fetch event (`sw.js` lines 59-116) -/

/-- An intercepted request: its URL, the origin of that URL
(`new URL(request.url).origin`), its method and its destination. -/
structure Request where
  url : String
  origin : String
  method : String
  destination : String
deriving DecidableEq, Repr

/-- The environment one interception runs in: the network, and whether the
cache store's read (`caches.match`) or fire-and-forget write
(`caches.open(..).then(put)`) rejects. -/
structure Env where
  net : String → Option Response
  matchFails : Bool
  putFails : Bool

/-- What `event.respondWith` delivers to the page: a response, or a
network-error failure (covering both a rejected promise and a promise that
resolved to `undefined`). -/
inductive FetchOutcome where
  | response (r : Response)
  | failure
deriving DecidableEq, Repr

/-- One interception's observable effect: the outcome delivered to the
page, the cache storage afterwards, and how many network fetches the
handler performed. -/
structure InterceptResult where
  outcome : FetchOutcome
  cs : CacheStorage
  fetchCount : Nat
deriving DecidableEq, Repr

/-- `sw.js` lines 78-84 and 101-107 (the same block in both branches):
`if (response && response.status === 200)` clone the response and fire
`caches.open(DYNAMIC_CACHE).then(cache => cache.put(request, clone))`
without awaiting it. A rejected write chain (`Env.putFails`) simply means
the write does not land. -/
def dynamicStore (env : Env) (cs : CacheStorage) (url : String)
    (r : Response) : CacheStorage :=
  if r.status = 200 then
    if env.putFails then cs else cachePut cs DYNAMIC_CACHE url r
  else cs

/-- `sw.js` lines 88-93: the `.catch` of the same-origin chain. For a
top-level document it answers with `caches.match('/index.html')`; anything
else (including a fallback lookup that misses or rejects) resolves to
`undefined`, which the browser turns into a network-error failure.
`n` is the number of fetches already performed by the chain. -/
def sameOriginCatch (env : Env) (cs : CacheStorage) (req : Request)
    (n : Nat) : InterceptResult :=
  if req.destination = "document" then
    if env.matchFails then ⟨.failure, cs, n⟩
    else
      match cachesMatch cs "/index.html" with
      | some r => ⟨.response r, cs, n⟩
      | none => ⟨.failure, cs, n⟩
  else ⟨.failure, cs, n⟩

/-- `sw.js` lines 69-94: same-origin cache-first chain.
`caches.match(request)`; on a hit answer from the cache; on a miss fetch,
store a status-200 response into `DYNAMIC_CACHE` and answer with the
network response; a rejection anywhere (cache store or network) falls into
`sameOriginCatch`. -/
def sameOriginHandler (env : Env) (cs : CacheStorage) (req : Request) :
    InterceptResult :=
  if env.matchFails then sameOriginCatch env cs req 0
  else
    match cachesMatch cs req.url with
    | some r => ⟨.response r, cs, 0⟩
    | none =>
      match env.net req.url with
      | some r => ⟨.response r, dynamicStore env cs req.url r, 1⟩
      | none => sameOriginCatch env cs req 1

/-- `sw.js` lines 97-114: cross-origin network-first chain. Fetch first;
store a status-200 response into `DYNAMIC_CACHE` and answer with the
network response; when the fetch rejects, answer with
`caches.match(request)` (a miss or a rejected lookup resolves the chain
without a response — a failure for the page). -/
def crossOriginHandler (env : Env) (cs : CacheStorage) (req : Request) :
    InterceptResult :=
  match env.net req.url with
  | some r => ⟨.response r, dynamicStore env cs req.url r, 1⟩
  | none =>
    if env.matchFails then ⟨.failure, cs, 1⟩
    else
      match cachesMatch cs req.url with
      | some r => ⟨.response r, cs, 1⟩
      | none => ⟨.failure, cs, 1⟩

/-- `sw.js` lines 59-116: the fetch listener. Non-GET requests are not
intercepted (`none`); same-origin GETs take the cache-first branch,
cross-origin GETs the network-first branch. (The second fetch listener,
lines 181-195, only logs timings and never calls `respondWith`, so it has
no observable effect on responses or caches.) -/
def fetchEvent (selfOrigin : String) (env : Env) (cs : CacheStorage)
    (req : Request) : Option InterceptResult :=
  if req.method ≠ "GET" then none
  else if req.origin = selfOrigin then some (sameOriginHandler env cs req)
  else some (crossOriginHandler env cs req)

/-! ## Message event (`sw.js` lines 170-178) -/

/-- The observable effects of one `message` event: whether `skipWaiting`
was called, and what (if anything) was posted back on `event.ports[0]`. -/
structure MessageEffects where
  skipWaitingCalled : Bool
  reply : Option String
deriving DecidableEq, Repr

/-- `sw.js` lines 170-178: `SKIP_WAITING` calls `self.skipWaiting()`;
`GET_VERSION` posts `{ version: CACHE_NAME }` on the reply port; any other
(or absent) `event.data.type` does nothing. -/
def messageEvent (ty : Option String) : MessageEffects :=
  { skipWaitingCalled := ty = some "SKIP_WAITING",
    reply := if ty = some "GET_VERSION" then some CACHE_NAME else none }

end SW

namespace SW

/-! ## Cache-storage lemmas -/

theorem lookupEntry_putEntry_self (es : CacheEntries) (url : String)
    (r : Response) : lookupEntry (putEntry es url r) url = some r := by
  induction es with
  | nil => simp [putEntry, lookupEntry]
  | cons e rest ih =>
    by_cases h : e.1 = url
    · simp [putEntry, h, lookupEntry]
    · simp [putEntry, h, lookupEntry, ih]

theorem cachesMatch_cachePut_self (cs : CacheStorage) (name url : String)
    (r : Response) (h : cachesMatch cs url = none) :
    cachesMatch (cachePut cs name url r) url = some r := by
  induction cs with
  | nil => simp [cachePut, cachesMatch, lookupEntry]
  | cons c rest ih =>
    have hsplit : lookupEntry c.2 url = none ∧ cachesMatch rest url = none := by
      cases hl : lookupEntry c.2 url with
      | none => simpa [cachesMatch, hl] using h
      | some r0 => simp [cachesMatch, hl] at h
    by_cases hc : c.1 = name
    · simp [cachePut, hc, cachesMatch, lookupEntry_putEntry_self]
    · simp [cachePut, hc, cachesMatch, hsplit.1, ih hsplit.2]

theorem cachesMatch_cachesOpen (cs : CacheStorage) (name url : String) :
    cachesMatch (cachesOpen cs name) url = cachesMatch cs url := by
  induction cs with
  | nil => simp [cachesOpen, cachesMatch, lookupEntry]
  | cons c rest ih =>
    by_cases hc : c.1 = name
    · simp [cachesOpen, hc]
    · cases hl : lookupEntry c.2 url <;> simp [cachesOpen, hc, cachesMatch, hl, ih]

/-! ## Activate-event characterization -/

theorem activate_foldl (L : List String) (cs : CacheStorage) :
    L.foldl (fun acc name => if staleGen name then cachesDelete acc name else acc) cs
      = cs.filter (fun c => L.all (fun n => !staleGen n || c.1 != n)) := by
  induction L generalizing cs with
  | nil => simp
  | cons n L ih =>
    by_cases hn : staleGen n = true
    · rw [List.foldl_cons, if_pos hn, cachesDelete, ih, List.filter_filter]
      refine List.filter_congr (fun c _ => ?_)
      simp [hn, Bool.and_comm]
    · have hn' : staleGen n = false := by simpa using hn
      rw [List.foldl_cons, if_neg hn, ih]
      refine List.filter_congr (fun c _ => ?_)
      simp [hn']

theorem activateEvent_eq_filter (cs : CacheStorage) :
    activateEvent cs = cs.filter (fun c => !staleGen c.1) := by
  rw [activateEvent, activate_foldl]
  refine List.filter_congr (fun c hc => ?_)
  by_cases h : staleGen c.1 = true
  · have hall : (cachesKeys cs).all (fun n => !staleGen n || c.1 != n) = false := by
      rw [List.all_eq_false]
      exact ⟨c.1, List.mem_map.mpr ⟨c, hc, rfl⟩, by simp [h]⟩
    rw [hall, h]
    rfl
  · have h' : staleGen c.1 = false := by simpa using h
    have hall : (cachesKeys cs).all (fun n => !staleGen n || c.1 != n) = true := by
      rw [List.all_eq_true]
      intro n _
      by_cases e : c.1 = n
      · simp [← e, h']
      · simp [e]
    rw [hall, h']
    rfl

theorem cacheLookup_activate_stale (cs : CacheStorage) (name : String)
    (h : staleGen name = true) :
    cacheLookup (activateEvent cs) name = none := by
  rw [activateEvent_eq_filter, cacheLookup]
  have hfind : (cs.filter (fun c => !staleGen c.1)).find?
      (fun c => c.1 == name) = none := by
    rw [List.find?_eq_none]
    intro c hc hbeq
    have he : c.1 = name := by simpa using hbeq
    have := (List.mem_filter.mp hc).2
    rw [he, h] at this
    simp at this
  rw [hfind]
  rfl

theorem find_filter_current (cs : CacheStorage) (name : String)
    (h : staleGen name = false) :
    (cs.filter (fun c => !staleGen c.1)).find? (fun c => c.1 == name)
      = cs.find? (fun c => c.1 == name) := by
  induction cs with
  | nil => simp
  | cons c rest ih =>
    by_cases hc : c.1 = name
    · have hcs : staleGen c.1 = false := by rw [hc]; exact h
      rw [List.filter_cons, if_pos (show (!staleGen c.1) = true by simp [hcs]),
        List.find?_cons_of_pos _ (by simp [hc]),
        List.find?_cons_of_pos _ (by simp [hc])]
    · by_cases hs : staleGen c.1 = true
      · rw [List.filter_cons, if_neg (by simp [hs]),
          List.find?_cons_of_neg _ (by simp [hc]), ih]
      · have hs' : staleGen c.1 = false := by simpa using hs
        rw [List.filter_cons, if_pos (by simp [hs']),
          List.find?_cons_of_neg _ (by simp [hc]),
          List.find?_cons_of_neg _ (by simp [hc]), ih]

theorem cacheLookup_activate_current (cs : CacheStorage) (name : String)
    (h : staleGen name = false) :
    cacheLookup (activateEvent cs) name = cacheLookup cs name := by
  rw [activateEvent_eq_filter, cacheLookup, cacheLookup,
    find_filter_current cs name h]

end SW

namespace SW

/-! ## Preservation of the successful-status invariant -/

theorem mem_putEntry (es : CacheEntries) (url : String) (r : Response)
    (x : String × Response) (hx : x ∈ putEntry es url r) :
    x = (url, r) ∨ x ∈ es := by
  induction es with
  | nil => simpa [putEntry] using hx
  | cons e rest ih =>
    by_cases hc : e.1 = url
    · simp only [putEntry, if_pos hc, List.mem_cons] at hx
      rcases hx with h1 | h2
      · exact Or.inl h1
      · exact Or.inr (List.mem_cons_of_mem _ h2)
    · simp only [putEntry, if_neg hc, List.mem_cons] at hx
      rcases hx with h1 | h2
      · exact Or.inr (by simp [h1])
      · rcases ih h2 with h3 | h4
        · exact Or.inl h3
        · exact Or.inr (List.mem_cons_of_mem _ h4)

theorem cacheOk_cachePut (cs : CacheStorage) (name url : String)
    (r : Response) (h : cacheOk cs) (hr : respOk r = true) :
    cacheOk (cachePut cs name url r) := by
  induction cs with
  | nil =>
    intro c hc e he
    simp only [cachePut, List.mem_singleton] at hc
    subst hc
    simp only [List.mem_singleton] at he
    subst he
    exact hr
  | cons c0 rest ih =>
    by_cases hc : c0.1 = name
    · intro c hcm e he
      simp only [cachePut, if_pos hc, List.mem_cons] at hcm
      rcases hcm with h1 | h2
      · subst h1
        rcases mem_putEntry c0.2 url r e he with h3 | h4
        · subst h3
          exact hr
        · exact h c0 (by simp) e h4
      · exact h c (List.mem_cons_of_mem _ h2) e he
    · intro c hcm e he
      simp only [cachePut, if_neg hc, List.mem_cons] at hcm
      rcases hcm with h1 | h2
      · exact h c (by simp [h1]) e he
      · exact ih (fun y hy => h y (List.mem_cons_of_mem _ hy)) c h2 e he

theorem cacheOk_cachesOpen (cs : CacheStorage) (name : String)
    (h : cacheOk cs) : cacheOk (cachesOpen cs name) := by
  induction cs with
  | nil =>
    intro c hc e he
    simp only [cachesOpen, List.mem_singleton] at hc
    subst hc
    simp at he
  | cons c0 rest ih =>
    by_cases hc : c0.1 = name
    · simpa [cachesOpen, hc] using h
    · intro c hcm e he
      simp only [cachesOpen, if_neg hc, List.mem_cons] at hcm
      rcases hcm with h1 | h2
      · exact h c (by simp [h1]) e he
      · exact ih (fun y hy => h y (List.mem_cons_of_mem _ hy)) c h2 e he

theorem cacheOk_addAllWrite (urls : List String)
    (net : String → Option Response) (cs : CacheStorage)
    (h : cacheOk cs) (hall : addAllOk net urls = true) :
    cacheOk (addAllWrite cs net urls) := by
  induction urls generalizing cs with
  | nil => simpa [addAllWrite] using h
  | cons u rest ih =>
    rw [addAllOk, List.all_cons, Bool.and_eq_true] at hall
    rw [addAllWrite, List.foldl_cons]
    cases hn : net u with
    | none => rw [hn] at hall; simp at hall
    | some r =>
      have hr : respOk r = true := by
        have := hall.1
        rw [hn] at this
        exact this
      exact ih (cachePut cs STATIC_CACHE u r)
        (cacheOk_cachePut cs STATIC_CACHE u r h hr) hall.2

theorem cacheOk_dynamicStore (env : Env) (cs : CacheStorage) (url : String)
    (r : Response) (h : cacheOk cs) : cacheOk (dynamicStore env cs url r) := by
  unfold dynamicStore
  split_ifs with hs hp
  · exact h
  · exact cacheOk_cachePut cs DYNAMIC_CACHE url r h (by simp [respOk, hs])
  · exact h

theorem cacheOk_sameOriginCatch (env : Env) (cs : CacheStorage)
    (req : Request) (n : Nat) (h : cacheOk cs) :
    cacheOk (sameOriginCatch env cs req n).cs := by
  unfold sameOriginCatch
  split_ifs <;> first
    | exact h
    | (cases cachesMatch cs "/index.html" <;> exact h)

theorem cacheOk_sameOriginHandler (env : Env) (cs : CacheStorage)
    (req : Request) (h : cacheOk cs) :
    cacheOk (sameOriginHandler env cs req).cs := by
  unfold sameOriginHandler
  split_ifs with hmf
  · exact cacheOk_sameOriginCatch env cs req 0 h
  · cases cachesMatch cs req.url with
    | some r => exact h
    | none =>
      cases env.net req.url with
      | some r => exact cacheOk_dynamicStore env cs req.url r h
      | none => exact cacheOk_sameOriginCatch env cs req 1 h

theorem cacheOk_crossOriginHandler (env : Env) (cs : CacheStorage)
    (req : Request) (h : cacheOk cs) :
    cacheOk (crossOriginHandler env cs req).cs := by
  unfold crossOriginHandler
  cases env.net req.url with
  | some r => exact cacheOk_dynamicStore env cs req.url r h
  | none =>
    split_ifs with hmf
    · exact h
    · cases cachesMatch cs req.url <;> exact h

end SW

namespace SW

/-! ## Concrete fixtures used by witnesses and counterexamples -/

/-- A 200 response for the root page. -/
def respHome : Response := ⟨200, "home"⟩

/-- A 200 response for an API resource. -/
def respData : Response := ⟨200, "data"⟩

/-- A 200 response for a CDN script. -/
def respCdn : Response := ⟨200, "lib"⟩

/-- A 404 response. -/
def respNotFound : Response := ⟨404, "missing"⟩

/-- A network where `/style.css` is unreachable and everything else
resolves with a 200. -/
def netNoStyle : String → Option Response :=
  fun u => if u = "/style.css" then none else some respHome

/-- A network where every fetch rejects. -/
def netDown : String → Option Response := fun _ => none

/-- A storage whose static generation holds the root document. -/
def csHit : CacheStorage := [(STATIC_CACHE, [("/index.html", respHome)])]

/-- A storage holding one stale generation next to the current ones. -/
def csOld : CacheStorage :=
  [("static-v0", [("/", ⟨200, "old"⟩)]),
   (STATIC_CACHE, [("/index.html", respHome)]),
   (DYNAMIC_CACHE, [])]

/-- A healthy environment whose network always answers `respHome`. -/
def envHome : Env := ⟨fun _ => some respHome, false, false⟩

/-- A healthy environment whose network always answers `respData`. -/
def envData : Env := ⟨fun _ => some respData, false, false⟩

/-- A healthy environment whose network always answers `respCdn`. -/
def envCdn : Env := ⟨fun _ => some respCdn, false, false⟩

/-- A healthy environment whose network always answers 404. -/
def envNotFound : Env := ⟨fun _ => some respNotFound, false, false⟩

/-- A healthy environment whose network is down. -/
def envOffline : Env := ⟨netDown, false, false⟩

/-- An environment whose network is fine but whose cache store rejects
every `caches.match`. -/
def envBrokenStore : Env := ⟨fun _ => some respData, true, false⟩

/-- A same-origin document request. -/
def reqDoc : Request := ⟨"/index.html", "https://site.test", "GET", "document"⟩

/-- A same-origin document request for a page that is not pre-cached. -/
def reqPage : Request := ⟨"/about", "https://site.test", "GET", "document"⟩

/-- A same-origin non-document request. -/
def reqApi : Request := ⟨"/api/data", "https://site.test", "GET", "empty"⟩

/-- A cross-origin script request. -/
def reqCdn : Request :=
  ⟨"https://cdn.test/lib.js", "https://cdn.test", "GET", "script"⟩

/-! ## Claim C1 -/

/-- C1, as stated, is false on the code: the install listener's final
`.catch` (sw.js lines 31-33) swallows the `cache.addAll` rejection, so an
install whose static pre-cache fails still succeeds. Concretely: with a
network where the manifest entry `/style.css` fails to fetch, the install
attempt nevertheless resolves successfully (though `skipWaiting` is
skipped and the error is only logged). -/
theorem C1_install_counterexample :
    "/style.css" ∈ STATIC_FILES ∧
      netNoStyle "/style.css" = none ∧
      (installEvent [] netNoStyle).succeeded = true ∧
      (installEvent [] netNoStyle).skipWaitingCalled = false := by
  refine ⟨by decide, rfl, rfl, rfl⟩

/-- C1 (amended): if fetching any URL of the static manifest fails, the
`cache.addAll` batch is all-or-nothing — no manifest entry is written, and
no new entry of any generation becomes servable (`caches.match` is
unchanged; only an empty `static-v1` generation may have been created) —
and the failure is logged; but the install attempt itself still succeeds
(the rejection is caught), with `skipWaiting` not reached. -/
theorem C1_install_failure_swallowed (cs : CacheStorage)
    (net : String → Option Response)
    (h : addAllOk net STATIC_FILES = false) :
    (installEvent cs net).succeeded = true ∧
    (installEvent cs net).skipWaitingCalled = false ∧
    (installEvent cs net).errorLogged = true ∧
    ∀ url, cachesMatch (installEvent cs net).cs url = cachesMatch cs url := by
  have hc : ¬ addAllOk net STATIC_FILES = true := by simp [h]
  refine ⟨?_, ?_, ?_, fun url => ?_⟩
  · simp [installEvent, if_neg hc]
  · simp [installEvent, if_neg hc]
  · simp [installEvent, if_neg hc]
  · simp [installEvent, if_neg hc, cachesMatch_cachesOpen]

/-- Witness for C1 (amended) at a concrete input: the all-fetches-fail
network. -/
theorem C1_install_failure_swallowed_witness :
    addAllOk netDown STATIC_FILES = false ∧
      (installEvent [] netDown).succeeded = true ∧
      cachesMatch (installEvent [] netDown).cs "/index.html" =
        cachesMatch ([] : CacheStorage) "/index.html" :=
  ⟨rfl, (C1_install_failure_swallowed [] netDown rfl).1,
    (C1_install_failure_swallowed [] netDown rfl).2.2.2 "/index.html"⟩

/-! ## Claim C2 -/

/-- C2: after the activate transition, every generation whose name is
neither the current static nor the current dynamic generation name is
gone, the current static and dynamic generations are exactly as before,
and the transition performs no other cache mutation (its result is
precisely the original storage restricted to the two current names). -/
theorem C2_activate_cleanup (cs : CacheStorage) (name : String)
    (hs : name ≠ STATIC_CACHE) (hd : name ≠ DYNAMIC_CACHE) :
    cacheLookup (activateEvent cs) name = none ∧
    cacheLookup (activateEvent cs) STATIC_CACHE = cacheLookup cs STATIC_CACHE ∧
    cacheLookup (activateEvent cs) DYNAMIC_CACHE = cacheLookup cs DYNAMIC_CACHE ∧
    activateEvent cs =
      cs.filter (fun c => c.1 == STATIC_CACHE || c.1 == DYNAMIC_CACHE) := by
  have hstale : staleGen name = true := by simp [staleGen, hs, hd]
  refine ⟨cacheLookup_activate_stale cs name hstale,
    cacheLookup_activate_current cs STATIC_CACHE (by simp [staleGen]),
    cacheLookup_activate_current cs DYNAMIC_CACHE (by simp [staleGen]),
    ?_⟩
  rw [activateEvent_eq_filter]
  refine List.filter_congr (fun c _ => ?_)
  cases h1 : c.1 == STATIC_CACHE <;> cases h2 : c.1 == DYNAMIC_CACHE <;>
    simp [staleGen, bne, h1, h2]

/-- Witness for C2 at a concrete storage holding a stale `static-v0`
generation next to the two current ones. -/
theorem C2_activate_cleanup_witness :
    ("static-v0" ≠ STATIC_CACHE ∧ "static-v0" ≠ DYNAMIC_CACHE) ∧
      cacheLookup (activateEvent csOld) "static-v0" = none ∧
      cacheLookup (activateEvent csOld) STATIC_CACHE =
        cacheLookup csOld STATIC_CACHE :=
  ⟨⟨by decide, by decide⟩,
    (C2_activate_cleanup csOld "static-v0" (by decide) (by decide)).1,
    (C2_activate_cleanup csOld "static-v0" (by decide) (by decide)).2.1⟩

/-! ## Claim C3 -/

/-- C3: a same-origin GET request whose URL is cached in some generation
is answered with that cached response, the storage is untouched, and zero
network fetches happen. -/
theorem C3_same_origin_cache_hit (selfOrigin : String) (env : Env)
    (cs : CacheStorage) (req : Request) (r : Response)
    (hm : req.method = "GET") (ho : req.origin = selfOrigin)
    (hmf : env.matchFails = false)
    (hhit : cachesMatch cs req.url = some r) :
    fetchEvent selfOrigin env cs req = some ⟨.response r, cs, 0⟩ := by
  unfold fetchEvent sameOriginHandler
  rw [hm, ho]
  simp [hmf, hhit]

/-- Witness for C3: the pre-cached root document is served from the static
generation with zero fetches. -/
theorem C3_same_origin_cache_hit_witness :
    cachesMatch csHit reqDoc.url = some respHome ∧
      fetchEvent "https://site.test" envHome csHit reqDoc =
        some ⟨.response respHome, csHit, 0⟩ :=
  ⟨rfl, C3_same_origin_cache_hit "https://site.test" envHome csHit reqDoc
    respHome rfl rfl rfl rfl⟩

/-! ## Claim C4 -/

theorem sameOriginCatch_fetchCount (env : Env) (cs : CacheStorage)
    (req : Request) (n : Nat) :
    (sameOriginCatch env cs req n).fetchCount = n := by
  unfold sameOriginCatch
  split_ifs <;> first
    | rfl
    | (cases cachesMatch cs "/index.html" <;> rfl)

/-- C4: every same-origin GET request cached nowhere performs exactly one
network fetch, whatever that fetch's outcome (success of any status,
or rejection); a response with status other than 200 is returned with
nothing cached; and when the fetch succeeds with status 200 the response
is stored in the dynamic generation, so an identical follow-up request
is served from that cache with zero further fetches (idempotent
warm-up). -/
theorem C4_same_origin_miss_warmup (selfOrigin : String) (env : Env)
    (cs : CacheStorage) (req : Request)
    (hm : req.method = "GET") (ho : req.origin = selfOrigin)
    (hmf : env.matchFails = false) (hpf : env.putFails = false)
    (hmiss : cachesMatch cs req.url = none) :
    (fetchEvent selfOrigin env cs req).map (fun res => res.fetchCount) =
      some 1 ∧
    (∀ r, env.net req.url = some r → r.status ≠ 200 →
        fetchEvent selfOrigin env cs req = some ⟨.response r, cs, 1⟩) ∧
    (∀ r, env.net req.url = some r → r.status = 200 →
        fetchEvent selfOrigin env cs req =
          some ⟨.response r, cachePut cs DYNAMIC_CACHE req.url r, 1⟩ ∧
        fetchEvent selfOrigin env (cachePut cs DYNAMIC_CACHE req.url r) req =
          some ⟨.response r, cachePut cs DYNAMIC_CACHE req.url r, 0⟩) := by
  refine ⟨?_, ?_, ?_⟩
  · unfold fetchEvent sameOriginHandler
    rw [hm, ho]
    cases hnet : env.net req.url with
    | some r => simp [hmf, hmiss, hnet]
    | none => simp [hmf, hmiss, hnet, sameOriginCatch_fetchCount]
  · intro r hnet hst
    unfold fetchEvent sameOriginHandler dynamicStore
    rw [hm, ho]
    simp [hmf, hmiss, hnet, hst]
  · intro r hnet hst
    constructor
    · unfold fetchEvent sameOriginHandler
      rw [hm, ho]
      simp [hmf, hmiss, hnet, dynamicStore, hst, hpf]
    · have hhit := cachesMatch_cachePut_self cs DYNAMIC_CACHE req.url r hmiss
      unfold fetchEvent sameOriginHandler
      rw [hm, ho]
      simp [hmf, hhit]

/-- Witness for C4: against an empty storage, a first request for
`/api/data` fetches once whether the network rejects, answers 404 (the
404 is returned, nothing is cached) or answers 200; in the 200 case the
dynamic generation is warmed and a second identical request is served
from it with zero fetches. -/
theorem C4_same_origin_miss_warmup_witness :
    cachesMatch ([] : CacheStorage) reqApi.url = none ∧
      (fetchEvent "https://site.test" envOffline [] reqApi).map
        (fun res => res.fetchCount) = some 1 ∧
      fetchEvent "https://site.test" envNotFound [] reqApi =
        some ⟨.response respNotFound, [], 1⟩ ∧
      fetchEvent "https://site.test" envData [] reqApi =
        some ⟨.response respData, cachePut [] DYNAMIC_CACHE reqApi.url respData, 1⟩ ∧
      fetchEvent "https://site.test" envData
          (cachePut [] DYNAMIC_CACHE reqApi.url respData) reqApi =
        some ⟨.response respData, cachePut [] DYNAMIC_CACHE reqApi.url respData, 0⟩ :=
  ⟨rfl,
    (C4_same_origin_miss_warmup "https://site.test" envOffline [] reqApi
      rfl rfl rfl rfl rfl).1,
    (C4_same_origin_miss_warmup "https://site.test" envNotFound [] reqApi
      rfl rfl rfl rfl rfl).2.1 respNotFound rfl (by decide),
    ((C4_same_origin_miss_warmup "https://site.test" envData [] reqApi
      rfl rfl rfl rfl rfl).2.2 respData rfl rfl).1,
    ((C4_same_origin_miss_warmup "https://site.test" envData [] reqApi
      rfl rfl rfl rfl rfl).2.2 respData rfl rfl).2⟩

end SW

namespace SW

/-! ## Claim C5 -/

/-- C5: cross-origin GET interception is network-first. The fetch is
always attempted (exactly one fetch in every case); a status-200 network
response is stored into the dynamic generation and returned itself; when
the fetch fails, the cached copy of that exact request is returned when
one exists, and otherwise the interception yields a failure. -/
theorem C5_cross_origin_network_first (selfOrigin : String) (env : Env)
    (cs : CacheStorage) (req : Request)
    (hm : req.method = "GET") (ho : req.origin ≠ selfOrigin)
    (hmf : env.matchFails = false) (hpf : env.putFails = false) :
    (∀ r, env.net req.url = some r → r.status = 200 →
        fetchEvent selfOrigin env cs req =
          some ⟨.response r, cachePut cs DYNAMIC_CACHE req.url r, 1⟩) ∧
    (∀ r, env.net req.url = none → cachesMatch cs req.url = some r →
        fetchEvent selfOrigin env cs req = some ⟨.response r, cs, 1⟩) ∧
    (env.net req.url = none → cachesMatch cs req.url = none →
        fetchEvent selfOrigin env cs req = some ⟨.failure, cs, 1⟩) := by
  refine ⟨?_, ?_, ?_⟩
  · intro r hnet hst
    unfold fetchEvent crossOriginHandler
    rw [hm]
    simp [ho, hnet, dynamicStore, hst, hpf]
  · intro r hnet hhit
    unfold fetchEvent crossOriginHandler
    rw [hm]
    simp [ho, hnet, hmf, hhit]
  · intro hnet hmiss
    unfold fetchEvent crossOriginHandler
    rw [hm]
    simp [ho, hnet, hmf, hmiss]

/-- Witness for C5: a CDN script fetch succeeds with 200, is stored into
the dynamic generation, and the network response is returned. -/
theorem C5_cross_origin_network_first_witness :
    reqCdn.origin ≠ "https://site.test" ∧
      fetchEvent "https://site.test" envCdn [] reqCdn =
        some ⟨.response respCdn, cachePut [] DYNAMIC_CACHE reqCdn.url respCdn, 1⟩ :=
  ⟨by decide,
    (C5_cross_origin_network_first "https://site.test" envCdn [] reqCdn
      rfl (by decide) rfl rfl).1 respCdn rfl rfl⟩

/-! ## Claim C6 -/

/-- C6: when a same-origin GET misses every cache and its network fetch
fails, a top-level document request is answered with the cached copy of
the root document (`/index.html`), and any other request yields a
failure — the controller invents no response. -/
theorem C6_same_origin_offline_fallback (selfOrigin : String) (env : Env)
    (cs : CacheStorage) (req : Request)
    (hm : req.method = "GET") (ho : req.origin = selfOrigin)
    (hmf : env.matchFails = false)
    (hmiss : cachesMatch cs req.url = none)
    (hnet : env.net req.url = none) :
    (∀ r, req.destination = "document" →
        cachesMatch cs "/index.html" = some r →
        fetchEvent selfOrigin env cs req = some ⟨.response r, cs, 1⟩) ∧
    (req.destination ≠ "document" →
        fetchEvent selfOrigin env cs req = some ⟨.failure, cs, 1⟩) := by
  constructor
  · intro r hd hfb
    unfold fetchEvent sameOriginHandler sameOriginCatch
    rw [hm, ho, hd]
    simp [hmf, hmiss, hnet, hfb]
  · intro hd
    unfold fetchEvent sameOriginHandler sameOriginCatch
    rw [hm, ho]
    simp [hmf, hmiss, hnet, hd]

/-- Witness for C6: offline navigation to a page that was never cached is
answered with the pre-cached `/index.html`. -/
theorem C6_same_origin_offline_fallback_witness :
    cachesMatch csHit reqPage.url = none ∧
      fetchEvent "https://site.test" envOffline csHit reqPage =
        some ⟨.response respHome, csHit, 1⟩ :=
  ⟨rfl,
    (C6_same_origin_offline_fallback "https://site.test" envOffline csHit
      reqPage rfl rfl rfl rfl rfl).1 respHome rfl rfl⟩

/-! ## Claim C7 -/

/-- C7, as stated, is false on the code: `GET_VERSION` is answered with
`CACHE_NAME` (`birthday-cache-v1.0.0`), a constant that is used nowhere as
a cache generation name, while the generation names actually in use are
`static-v1` and `dynamic-v1` — there is no version string `v` with
`STATIC_CACHE = "static-" ++ v`, `DYNAMIC_CACHE = "dynamic-" ++ v` and
reply `v`. -/
theorem C7_get_version_counterexample :
    (messageEvent (some "GET_VERSION")).reply = some CACHE_NAME ∧
      ¬ ∃ v, STATIC_CACHE = "static-" ++ v ∧ DYNAMIC_CACHE = "dynamic-" ++ v ∧
          (messageEvent (some "GET_VERSION")).reply = some v := by
  refine ⟨rfl, ?_⟩
  rintro ⟨v, hs, _, hr⟩
  have h0 : (messageEvent (some "GET_VERSION")).reply = some CACHE_NAME := rfl
  rw [h0] at hr
  have hv : CACHE_NAME = v := by
    injection hr
  rw [← hv] at hs
  exact absurd hs (by decide)

/-- C7 (amended): `GET_VERSION` always replies with the constant
`CACHE_NAME` = `birthday-cache-v1.0.0`; this tag is not the version
embedded in the generation names currently in use (`static-v1` /
`dynamic-v1` do not carry it as their version suffix). -/
theorem C7_get_version_reply (ty : Option String)
    (h : ty = some "GET_VERSION") :
    (messageEvent ty).reply = some CACHE_NAME ∧
      STATIC_CACHE ≠ "static-" ++ CACHE_NAME ∧
      DYNAMIC_CACHE ≠ "dynamic-" ++ CACHE_NAME := by
  subst h
  exact ⟨rfl, by decide, by decide⟩

/-- Witness for C7 (amended) at the concrete `GET_VERSION` message. -/
theorem C7_get_version_reply_witness :
    (messageEvent (some "GET_VERSION")).reply = some CACHE_NAME :=
  (C7_get_version_reply (some "GET_VERSION") rfl).1

/-! ## Claim C8 -/

/-- C8: starting from a storage whose every entry has a successful status,
every operation of the controller — install pre-cache, activate cleanup,
and fetch interception on either branch — preserves that invariant: no
operation ever writes a non-successful response into any generation. -/
theorem C8_only_ok_written (cs : CacheStorage) (h : cacheOk cs) :
    (∀ net, cacheOk (installEvent cs net).cs) ∧
    cacheOk (activateEvent cs) ∧
    (∀ selfOrigin env req res,
        fetchEvent selfOrigin env cs req = some res → cacheOk res.cs) := by
  refine ⟨?_, ?_, ?_⟩
  · intro net
    unfold installEvent
    by_cases hall : addAllOk net STATIC_FILES = true
    · simp only [if_pos hall]
      exact cacheOk_addAllWrite STATIC_FILES net (cachesOpen cs STATIC_CACHE)
        (cacheOk_cachesOpen cs STATIC_CACHE h) hall
    · simp only [if_neg hall]
      exact cacheOk_cachesOpen cs STATIC_CACHE h
  · rw [activateEvent_eq_filter]
    intro c hc
    exact h c (List.mem_filter.mp hc).1
  · intro selfOrigin env req res hres
    unfold fetchEvent at hres
    by_cases h1 : req.method ≠ "GET"
    · rw [if_pos h1] at hres
      exact absurd hres (by simp)
    · rw [if_neg h1] at hres
      by_cases h2 : req.origin = selfOrigin
      · rw [if_pos h2] at hres
        injection hres with h3
        rw [← h3]
        exact cacheOk_sameOriginHandler env cs req h
      · rw [if_neg h2] at hres
        injection hres with h3
        rw [← h3]
        exact cacheOk_crossOriginHandler env cs req h

/-- Witness for C8: the invariant holds for the concrete pre-cached
storage and is preserved by its activate cleanup. -/
theorem C8_only_ok_written_witness :
    cacheOk csHit ∧ cacheOk (activateEvent csHit) :=
  ⟨by decide, (C8_only_ok_written csHit (by decide)).2.1⟩

/-! ## Claim C9 -/

/-- C9, as stated, is false on the code: for a same-origin GET, a cache
store whose `caches.match` rejects does not degrade the request to
network-only behavior. The rejection skips the `.then` holding the
`fetch` call and lands in the `.catch`, so zero network fetches are
performed and the interception fails — even though the network had a 200
response available. -/
theorem C9_store_failure_counterexample :
    envBrokenStore.net reqApi.url = some respData ∧
      envBrokenStore.matchFails = true ∧
      fetchEvent "https://site.test" envBrokenStore [] reqApi =
        some ⟨.failure, [], 0⟩ :=
  ⟨rfl, rfl, rfl⟩

/-- C9 (amended): a cache-store failure never crashes the interception
pipeline, but only cross-origin requests keep their network behavior: a
same-origin GET whose `caches.match` rejects is answered by the fallback
path with zero network fetches (a failure, since the fallback lookup
rejects too), while a cross-origin GET still performs its one fetch and
returns the network response (stored into the dynamic generation when it
is a 200 and the write chain is healthy). -/
theorem C9_store_failure_behavior (selfOrigin : String) (env : Env)
    (cs : CacheStorage) (req : Request)
    (hm : req.method = "GET") (hmf : env.matchFails = true) :
    (req.origin = selfOrigin →
        fetchEvent selfOrigin env cs req = some ⟨.failure, cs, 0⟩) ∧
    (req.origin ≠ selfOrigin → ∀ r, env.net req.url = some r →
        fetchEvent selfOrigin env cs req =
          some ⟨.response r, dynamicStore env cs req.url r, 1⟩) ∧
    (req.origin ≠ selfOrigin → env.net req.url = none →
        fetchEvent selfOrigin env cs req = some ⟨.failure, cs, 1⟩) := by
  refine ⟨?_, ?_, ?_⟩
  · intro ho
    unfold fetchEvent sameOriginHandler sameOriginCatch
    rw [hm, ho]
    by_cases hd : req.destination = "document" <;> simp [hmf, hd]
  · intro ho r hnet
    unfold fetchEvent crossOriginHandler
    rw [hm]
    simp [ho, hnet]
  · intro ho hnet
    unfold fetchEvent crossOriginHandler
    rw [hm]
    simp [ho, hnet, hmf]

/-- Witness for C9 (amended): with the broken store, the same-origin
request fails with zero fetches and the cross-origin request still
returns its network response. -/
theorem C9_store_failure_behavior_witness :
    envBrokenStore.matchFails = true ∧
      fetchEvent "https://site.test" envBrokenStore csHit reqApi =
        some ⟨.failure, csHit, 0⟩ ∧
      fetchEvent "https://site.test" envBrokenStore csHit reqCdn =
        some ⟨.response respData, dynamicStore envBrokenStore csHit reqCdn.url respData, 1⟩ :=
  ⟨rfl,
    (C9_store_failure_behavior "https://site.test" envBrokenStore csHit
      reqApi rfl rfl).1 rfl,
    (C9_store_failure_behavior "https://site.test" envBrokenStore csHit
      reqCdn rfl rfl).2.1 (by decide) respData rfl⟩

/-! ## Claim C10 -/

/-- C10: a cross-origin GET whose network fetch resolves with a status
other than 200 (e.g. a 404) is answered with that response unchanged,
one fetch is performed, and the cache storage — every generation — is
exactly as before. -/
theorem C10_cross_origin_non200 (selfOrigin : String) (env : Env)
    (cs : CacheStorage) (req : Request) (r : Response)
    (hm : req.method = "GET") (ho : req.origin ≠ selfOrigin)
    (hnet : env.net req.url = some r) (hst : r.status ≠ 200) :
    fetchEvent selfOrigin env cs req = some ⟨.response r, cs, 1⟩ := by
  unfold fetchEvent crossOriginHandler dynamicStore
  rw [hm]
  simp [ho, hnet, hst]

/-- Witness for C10: a 404 from the CDN is returned unchanged and the
storage is untouched. -/
theorem C10_cross_origin_non200_witness :
    respNotFound.status ≠ 200 ∧
      fetchEvent "https://site.test" envNotFound csHit reqCdn =
        some ⟨.response respNotFound, csHit, 1⟩ :=
  ⟨by decide,
    C10_cross_origin_non200 "https://site.test" envNotFound csHit reqCdn
      respNotFound rfl (by decide) rfl (by decide)⟩

end SW
